import Mathlib

/-!
# Verification of `rust-cfk` (`src/temp.rs`)

This file gives a shallow embedding of the temperature type of the
`rust-cfk` repository: the unit tag `TempUnit`, the value type `Temp`, the
parser `Temp::from_str`, the three conversions `to_celsius`,
`to_fahrenheit`, `to_kelvin`, and the display implementation.

The scalar type of the repository is `rust_decimal::Decimal` (an external
crate): a sign, a 96-bit magnitude, and a scale in `0..=28`, so that the
value is `mantissa / 10 ^ scale`.  We model it as an integer mantissa with
a natural-number scale, with the crate's documented behaviour at the
precision limit: results whose scale exceeds 28 or whose magnitude exceeds
`2^96 - 1` are reduced digit by digit (truncating, keeping the most recent
dropped digit) and then rounded by that digit; reduction below scale 0 is
an arithmetic-overflow panic, modelled as `none`.  Division produces the
shortest exact scale when the quotient terminates within 28 fractional
digits and otherwise rounds at the 28th digit.  The string parser is
modelled for the character classes exercised by this repository: an
optional leading sign, decimal digits and at most one decimal point
(digit-group underscores and non-ASCII whitespace in `trim` are outside
the model).  All arithmetic on the relevant inputs is far from half-way
rounding cases and from the overflow boundary, so the modelled rounding
agrees with the crate on every input used below; the repository's own unit
tests (reproduced as examples) pin the model down.
-/

/-- Model of `rust_decimal::Decimal`: value `mantissa / 10 ^ scale`. -/
structure Decimal where
  mantissa : Int
  scale : Nat
deriving DecidableEq

/-- Largest scale a `Decimal` can carry (28 fractional digits). -/
def maxScale : Nat := 28

/-- Largest magnitude a `Decimal` mantissa can carry: `2 ^ 96 - 1`. -/
def maxMantissa : Nat := 79228162514264337593543950335

/-- Drop least-significant digits from a magnitude until it fits in 96 bits
and the scale is at most 28, truncating and keeping the most recently
dropped digit.  `none` when the scale reaches 0 while still overflowing. -/
def reduceMag : Nat → Nat → Nat → Option (Nat × Nat × Nat)
  | mag, 0, rem => if mag ≤ maxMantissa then some (mag, 0, rem) else none
  | mag, s + 1, rem =>
    if mag ≤ maxMantissa ∧ s + 1 ≤ maxScale then some (mag, s + 1, rem)
    else reduceMag (mag / 10) s (mag % 10)

/-- Reapply the sign of `m` to a magnitude. -/
def signMag (m : Int) (mag : Nat) : Int :=
  if m < 0 then -(mag : Int) else (mag : Int)

/-- Fit a raw (mantissa, scale) result into the `Decimal` range, rounding
by the most significant dropped digit; `none` models the overflow panic. -/
def decFit (m : Int) (s : Nat) : Option Decimal :=
  match reduceMag m.natAbs s 0 with
  | none => none
  | some (mag, s', rem) =>
    let mag' := if 5 ≤ rem then mag + 1 else mag
    if mag' ≤ maxMantissa then some ⟨signMag m mag', s'⟩
    else
      match s' with
      | 0 => none
      | s'' + 1 => some ⟨signMag m (mag' / 10), s''⟩

/-- The common scale two operands are brought to before adding. -/
def alignScale (a b : Decimal) : Nat := max a.scale b.scale

/-- Both mantissas rescaled to the common scale. -/
def alignedMant (a b : Decimal) : Int × Int :=
  (a.mantissa * (10 : Int) ^ (alignScale a b - a.scale),
   b.mantissa * (10 : Int) ^ (alignScale a b - b.scale))

/-- `Decimal` addition (panics on overflow at scale 0, hence `Option`). -/
def decAdd (a b : Decimal) : Option Decimal :=
  decFit ((alignedMant a b).1 + (alignedMant a b).2) (alignScale a b)

/-- `Decimal` subtraction. -/
def decSub (a b : Decimal) : Option Decimal :=
  decFit ((alignedMant a b).1 - (alignedMant a b).2) (alignScale a b)

/-- `Decimal` multiplication. -/
def decMul (a b : Decimal) : Option Decimal :=
  decFit (a.mantissa * b.mantissa) (a.scale + b.scale)

/-- `Decimal` division: shortest exact scale within 28 fractional digits,
otherwise rounded at the 28th digit by the next quotient digit. -/
def decDiv (a b : Decimal) : Option Decimal :=
  if b.mantissa = 0 then none
  else
    let N : Nat := (a.mantissa * (10 : Int) ^ b.scale).natAbs
    let D : Nat := (b.mantissa * (10 : Int) ^ a.scale).natAbs
    let neg : Bool := (decide (a.mantissa < 0)).xor (decide (b.mantissa < 0))
    match (List.range (maxScale + 1)).find? (fun s => N * 10 ^ s % D == 0) with
    | some s =>
      decFit (if neg then -((N * 10 ^ s / D : Nat) : Int) else ((N * 10 ^ s / D : Nat) : Int)) s
    | none =>
      let q := N * 10 ^ maxScale / D
      let next := N * 10 ^ (maxScale + 1) / D % 10
      let q' := if 5 ≤ next then q + 1 else q
      decFit (if neg then -(q' : Int) else (q' : Int)) maxScale

/-- The exact rational value of a `Decimal`. -/
def valueOf (d : Decimal) : ℚ := (d.mantissa : ℚ) / 10 ^ d.scale

/-- Model of `rust_decimal`'s `PartialEq`: equality of values, ignoring
the scale representation (`1.00 == 1`). -/
def decEqv (a b : Decimal) : Bool :=
  a.mantissa * (10 : Int) ^ b.scale == b.mantissa * (10 : Int) ^ a.scale

/-- Strip trailing zero digits from the fractional part
(`rust_decimal::Decimal::normalize`). -/
def normAux : Int → Nat → Decimal
  | m, 0 => ⟨m, 0⟩
  | m, s + 1 => if m % 10 = 0 then normAux (m / 10) s else ⟨m, s + 1⟩

/-- `Decimal::normalize`. -/
def decNormalize (d : Decimal) : Decimal := normAux d.mantissa d.scale

/-- Decimal digits of a natural number, most significant first
(fuel-recursive so that the kernel can evaluate it). -/
def natDigitsAux : Nat → Nat → List Char
  | 0, _ => []
  | fuel + 1, n =>
    if n = 0 then [] else natDigitsAux fuel (n / 10) ++ [Char.ofNat (48 + n % 10)]

/-- Render a natural number in decimal. -/
def natDigitsStr (n : Nat) : String :=
  if n = 0 then "0" else String.mk (natDigitsAux n n)

/-- Left-pad a digit list with zeros to width `k`. -/
def padZeros (k : Nat) (l : List Char) : List Char :=
  List.replicate (k - l.length) '0' ++ l

/-- Model of `rust_decimal`'s `Display`: sign, integer part, and the
fractional part padded to exactly `scale` digits. -/
def decToString (d : Decimal) : String :=
  let mag := d.mantissa.natAbs
  let sgn := if d.mantissa < 0 then "-" else ""
  if d.scale = 0 then sgn ++ natDigitsStr mag
  else
    let fp := mag % 10 ^ d.scale
    sgn ++ natDigitsStr (mag / 10 ^ d.scale) ++ "." ++
      String.mk (padZeros d.scale (if fp = 0 then [] else natDigitsAux fp fp))

/-- ASCII whitespace recognised by the modelled `str::trim`. -/
def isWsChar (ch : Char) : Bool :=
  ch = ' ' || ch = '\t' || ch = '\n' || ch = '\r'

/-- Trim whitespace from both ends of a character list (`str::trim`). -/
def trimChars (cs : List Char) : List Char :=
  ((cs.dropWhile isWsChar).reverse.dropWhile isWsChar).reverse

/-- Model of `Vec::split_last` on the collected characters: the last
character paired with all the preceding ones. -/
def splitLast : List Char → Option (Char × List Char)
  | [] => none
  | [ch] => some (ch, [])
  | ch :: rest => (splitLast rest).map (fun p => (p.1, ch :: p.2))

/-- Digit loop of `Decimal::from_str`: accumulates the mantissa and the
count of fractional digits, rejecting a second point and any character
that is neither a digit nor a point. -/
def parseDigits : List Char → Nat → Nat → Bool → Bool → Except String (Nat × Nat)
  | [], acc, sc, _, seenDigit =>
    if seenDigit then .ok (acc, sc) else .error "Invalid decimal: empty"
  | ch :: rest, acc, sc, seenDot, seenDigit =>
    if ch.isDigit then
      parseDigits rest (acc * 10 + (ch.toNat - 48)) (if seenDot then sc + 1 else sc) seenDot true
    else if ch = '.' then
      if seenDot then .error "Invalid decimal: two decimal points"
      else parseDigits rest acc sc true seenDigit
    else .error "Invalid decimal: unknown character"

/-- Assemble a parsed digit string into a `Decimal`: round away excess
fractional digits (by the first dropped digit) and reject mantissa
overflow. -/
def mkDecimal (negSign : Bool) (acc sc : Nat) : Except String Decimal :=
  let p :=
    if sc ≤ maxScale then (acc, sc)
    else
      let k := sc - maxScale
      let q := acc / 10 ^ k
      let first := acc / 10 ^ (k - 1) % 10
      (if 5 ≤ first then q + 1 else q, maxScale)
  if p.1 ≤ maxMantissa then
    .ok ⟨if negSign then -(p.1 : Int) else (p.1 : Int), p.2⟩
  else .error "Invalid decimal: overflow from too many digits"

/-- Model of `rust_decimal::Decimal::from_str` on a character list. -/
def decimalFromStr (cs : List Char) : Except String Decimal :=
  match cs with
  | '+' :: rest =>
    match parseDigits rest 0 0 false false with
    | .error e => .error e
    | .ok p => mkDecimal false p.1 p.2
  | '-' :: rest =>
    match parseDigits rest 0 0 false false with
    | .error e => .error e
    | .ok p => mkDecimal true p.1 p.2
  | _ =>
    match parseDigits cs 0 0 false false with
    | .error e => .error e
    | .ok p => mkDecimal false p.1 p.2

/-- The unit tag of `temp.rs`: a single character, stored as given. -/
structure TempUnit where
  c : Char
deriving DecidableEq

/-- `const CEL: TempUnit = TempUnit('C')`. -/
def CEL : TempUnit := ⟨'C'⟩

/-- `const FAH: TempUnit = TempUnit('F')`. -/
def FAH : TempUnit := ⟨'F'⟩

/-- `const KEL: TempUnit = TempUnit('K')`. -/
def KEL : TempUnit := ⟨'K'⟩

/-- `char::to_ascii_uppercase`. -/
def toAsciiUpper (ch : Char) : Char :=
  if 'a' ≤ ch ∧ ch ≤ 'z' then Char.ofNat (ch.toNat - 32) else ch

/-- `TempUnit::try_from(char)`: the uppercased character must be one of
`C`, `F`, `K`; the original (possibly lowercase) character is stored. -/
def tempUnitTryFrom (ch : Char) : Except String TempUnit :=
  if [CEL.c, FAH.c, KEL.c].contains (toAsciiUpper ch) then .ok ⟨ch⟩
  else .error (String.singleton ch ++ " is not a valid temperature unit")

/-- The temperature value type of `temp.rs`. -/
structure Temp where
  scalar : Decimal
  unit : TempUnit
deriving DecidableEq

/-- Outcome of a conversion: a value, an arithmetic-overflow panic inside
`rust_decimal`, or the `_ => panic!` arm of the unit match. -/
inductive ConvResult where
  | ok (t : Temp)
  | arithOverflow
  | invalidUnitPanic
deriving DecidableEq

/-- `dec!(5)`. -/
def dec5 : Decimal := ⟨5, 0⟩

/-- `dec!(9)`. -/
def dec9 : Decimal := ⟨9, 0⟩

/-- `dec!(32)`. -/
def dec32 : Decimal := ⟨32, 0⟩

/-- `dec!(1.8)`. -/
def dec1_8 : Decimal := ⟨18, 1⟩

/-- `dec!(273.15)`. -/
def dec273_15 : Decimal := ⟨27315, 2⟩

/-- `dec!(459.67)`. -/
def dec459_67 : Decimal := ⟨45967, 2⟩

/-- The constant `dec!(5) / dec!(9)` computed by the `F` branches. -/
def fiveNinths : Option Decimal := decDiv dec5 dec9

/-- `Temp::to_celsius`.  The match arms compare the stored unit character
against the uppercase constants; the final arm is the panic. -/
def Temp.to_celsius (t : Temp) : ConvResult :=
  if t.unit = CEL then .ok t
  else if t.unit = FAH then
    match decSub t.scalar dec32 with
    | none => .arithOverflow
    | some x =>
      match fiveNinths with
      | none => .arithOverflow
      | some q =>
        match decMul x q with
        | none => .arithOverflow
        | some y => .ok ⟨y, CEL⟩
  else if t.unit = KEL then
    match decSub t.scalar dec273_15 with
    | none => .arithOverflow
    | some x => .ok ⟨x, CEL⟩
  else .invalidUnitPanic

/-- `Temp::to_fahrenheit`. -/
def Temp.to_fahrenheit (t : Temp) : ConvResult :=
  if t.unit = CEL then
    match decMul t.scalar dec1_8 with
    | none => .arithOverflow
    | some x =>
      match decAdd x dec32 with
      | none => .arithOverflow
      | some y => .ok ⟨y, FAH⟩
  else if t.unit = FAH then .ok t
  else if t.unit = KEL then
    match decMul t.scalar dec1_8 with
    | none => .arithOverflow
    | some x =>
      match decSub x dec459_67 with
      | none => .arithOverflow
      | some y => .ok ⟨y, FAH⟩
  else .invalidUnitPanic

/-- `Temp::to_kelvin`. -/
def Temp.to_kelvin (t : Temp) : ConvResult :=
  if t.unit = CEL then
    match decAdd t.scalar dec273_15 with
    | none => .arithOverflow
    | some x => .ok ⟨x, KEL⟩
  else if t.unit = FAH then
    match decAdd t.scalar dec459_67 with
    | none => .arithOverflow
    | some x =>
      match fiveNinths with
      | none => .arithOverflow
      | some q =>
        match decMul x q with
        | none => .arithOverflow
        | some y => .ok ⟨y, KEL⟩
  else if t.unit = KEL then .ok t
  else .invalidUnitPanic

/-- `<Temp as FromStr>::from_str`: split off the last character, parse the
(trimmed) prefix as a `Decimal` and the last character as a `TempUnit`;
succeed only when both succeed, otherwise combine both error texts. -/
def tempFromStr (s : String) : Except String Temp :=
  match splitLast s.data with
  | none => .error ("Invalid temperature value: " ++ s)
  | some (u, init) =>
    let convScalar := decimalFromStr (trimChars init)
    let convUnit := tempUnitTryFrom u
    match convScalar, convUnit with
    | .ok sc, .ok un => .ok ⟨sc, un⟩
    | _, _ =>
      .error ("Unable to convert " ++ s ++ " into temperature:\n"
        ++ (match convScalar with | .error e => e | .ok _ => "")
        ++ "\n"
        ++ (match convUnit with | .error e => e | .ok _ => ""))

/-- `<Temp as Display>::fmt`: the normalized scalar, a space, the unit. -/
def tempToString (t : Temp) : String :=
  decToString (decNormalize t.scalar) ++ " " ++ String.singleton t.unit.c

/-- The three conversion entry points, as dispatched by `main.rs` after
uppercasing the requested target character. -/
inductive Target where
  | tC
  | tF
  | tK
deriving DecidableEq

/-- Apply the conversion selected by a target unit. -/
def applyConv : Target → Temp → ConvResult
  | .tC, t => t.to_celsius
  | .tF, t => t.to_fahrenheit
  | .tK, t => t.to_kelvin

/-- The unit constant a target stands for. -/
def targetUnit : Target → TempUnit
  | .tC => CEL
  | .tF => FAH
  | .tK => KEL

/-- Two conversions in sequence (a conversion cycle when the second target
is the starting unit). -/
def convChain (t : Temp) (tg1 tg2 : Target) : ConvResult :=
  match applyConv tg1 t with
  | .ok t' => applyConv tg2 t'
  | r => r

/-- The 28-digit rounding of 5/9 that `dec!(5) / dec!(9)` produces. -/
def DQ : Decimal := ⟨5555555555555555555555555556, 28⟩

/-- A raw result fits without any reduction or rounding. -/
def fitExact (m : Int) (s : Nat) : Bool :=
  decide (s ≤ maxScale ∧ m.natAbs ≤ maxMantissa)

/-- The aligned difference of two decimals, before fitting. -/
def decSubA (a b : Decimal) : Decimal :=
  ⟨(alignedMant a b).1 - (alignedMant a b).2, alignScale a b⟩

/-- The aligned sum of two decimals, before fitting. -/
def decAddA (a b : Decimal) : Decimal :=
  ⟨(alignedMant a b).1 + (alignedMant a b).2, alignScale a b⟩

/-- The raw product of two decimals, before fitting. -/
def decMulA (a b : Decimal) : Decimal :=
  ⟨a.mantissa * b.mantissa, a.scale + b.scale⟩

/-- Subtraction loses no precision on these operands. -/
def subExact (a b : Decimal) : Bool :=
  fitExact ((alignedMant a b).1 - (alignedMant a b).2) (alignScale a b)

/-- Addition loses no precision on these operands. -/
def addExact (a b : Decimal) : Bool :=
  fitExact ((alignedMant a b).1 + (alignedMant a b).2) (alignScale a b)

/-- Multiplication loses no precision on these operands. -/
def mulExact (a b : Decimal) : Bool :=
  fitExact (a.mantissa * b.mantissa) (a.scale + b.scale)

/-- The `F → C` path performs no rounding beyond the 5/9 constant. -/
def exactFC (t : Temp) : Bool :=
  subExact t.scalar dec32 && mulExact (decSubA t.scalar dec32) DQ

/-- The `K → C` path performs no rounding. -/
def exactKC (t : Temp) : Bool := subExact t.scalar dec273_15

/-- The `C → F` path performs no rounding. -/
def exactCF (t : Temp) : Bool :=
  mulExact t.scalar dec1_8 && addExact (decMulA t.scalar dec1_8) dec32

/-- The `K → F` path performs no rounding. -/
def exactKF (t : Temp) : Bool :=
  mulExact t.scalar dec1_8 && subExact (decMulA t.scalar dec1_8) dec459_67

/-- The `C → K` path performs no rounding. -/
def exactCK (t : Temp) : Bool := addExact t.scalar dec273_15

/-- The `F → K` path performs no rounding beyond the 5/9 constant. -/
def exactFK (t : Temp) : Bool :=
  addExact t.scalar dec459_67 && mulExact (decAddA t.scalar dec459_67) DQ

lemma fiveNinths_eq : fiveNinths = some DQ := by decide

lemma reduceMag_fits (mag s rem : Nat) (hm : mag ≤ maxMantissa) (hs : s ≤ maxScale) :
    reduceMag mag s rem = some (mag, s, rem) := by
  cases s with
  | zero => simp [reduceMag, hm]
  | succ n => simp [reduceMag, hm, hs]

lemma signMag_natAbs (m : Int) : signMag m m.natAbs = m := by
  unfold signMag
  rcases lt_or_ge m 0 with h | h
  · rw [if_pos h, Int.ofNat_natAbs_of_nonpos (le_of_lt h), neg_neg]
  · rw [if_neg (not_lt.mpr h), Int.natAbs_of_nonneg h]

lemma decFit_of_exact (m : Int) (s : Nat) (h : fitExact m s = true) :
    decFit m s = some ⟨m, s⟩ := by
  unfold fitExact at h
  rw [decide_eq_true_eq] at h
  obtain ⟨hs, hm⟩ := h
  unfold decFit
  rw [reduceMag_fits _ _ _ hm hs]
  simp only [show ¬ (5 ≤ 0) by norm_num, if_false, if_pos hm, signMag_natAbs]

lemma decSub_of_exact (a b : Decimal) (h : subExact a b = true) :
    decSub a b = some (decSubA a b) :=
  decFit_of_exact _ _ h

lemma decAdd_of_exact (a b : Decimal) (h : addExact a b = true) :
    decAdd a b = some (decAddA a b) :=
  decFit_of_exact _ _ h

lemma decMul_of_exact (a b : Decimal) (h : mulExact a b = true) :
    decMul a b = some (decMulA a b) :=
  decFit_of_exact _ _ h

lemma pow_sub_div (m : Int) (s1 s : Nat) (h : s1 ≤ s) :
    ((m : ℚ) * 10 ^ (s - s1)) / 10 ^ s = (m : ℚ) / 10 ^ s1 := by
  have hp : (10 : ℚ) ^ s = 10 ^ (s - s1) * 10 ^ s1 := by
    rw [← pow_add, Nat.sub_add_cancel h]
  rw [hp, div_mul_eq_div_div, mul_div_cancel_right₀ _ (pow_ne_zero _ (by norm_num))]

lemma valueOf_decSubA (a b : Decimal) :
    valueOf (decSubA a b) = valueOf a - valueOf b := by
  unfold valueOf decSubA alignedMant alignScale
  push_cast
  rw [sub_div, pow_sub_div _ _ _ (le_max_left _ _), pow_sub_div _ _ _ (le_max_right _ _)]

lemma valueOf_decAddA (a b : Decimal) :
    valueOf (decAddA a b) = valueOf a + valueOf b := by
  unfold valueOf decAddA alignedMant alignScale
  push_cast
  rw [add_div, pow_sub_div _ _ _ (le_max_left _ _), pow_sub_div _ _ _ (le_max_right _ _)]

lemma valueOf_decMulA (a b : Decimal) :
    valueOf (decMulA a b) = valueOf a * valueOf b := by
  unfold valueOf decMulA
  push_cast
  rw [pow_add, div_mul_div_comm]

/-! Sanity examples reproducing the repository's own unit tests. -/

example : tempFromStr "15C" = .ok ⟨⟨15, 0⟩, ⟨'C'⟩⟩ := rfl

example : tempFromStr "122314234K" = .ok ⟨⟨122314234, 0⟩, ⟨'K'⟩⟩ := rfl

example : tempFromStr "-347.4f" = .ok ⟨⟨-3474, 1⟩, ⟨'f'⟩⟩ := rfl

example : (tempFromStr "15d").isOk = false := rfl

example : (tempFromStr "1234.614").isOk = false := rfl

example : (tempFromStr "123sdafsd23445.4F").isOk = false := rfl

example : Temp.to_celsius ⟨⟨32, 0⟩, FAH⟩ = .ok ⟨⟨0, 28⟩, CEL⟩ := rfl

example : decEqv ⟨0, 28⟩ ⟨0, 0⟩ = true := rfl

example : Temp.to_celsius ⟨⟨23463, 2⟩, KEL⟩ = .ok ⟨⟨-3852, 2⟩, CEL⟩ := rfl

example : Temp.to_fahrenheit ⟨⟨-18, 0⟩, CEL⟩ = .ok ⟨⟨-4, 1⟩, FAH⟩ := rfl

example : Temp.to_fahrenheit ⟨⟨38653675, 0⟩, KEL⟩ = .ok ⟨⟨6957615533, 2⟩, FAH⟩ := rfl

example : Temp.to_kelvin ⟨⟨2500, 2⟩, CEL⟩ = .ok ⟨⟨29815, 2⟩, KEL⟩ := rfl

example :
    Temp.to_kelvin ⟨⟨-200200, 2⟩, FAH⟩ =
      .ok ⟨⟨-8568500000000000000000000001, 25⟩, KEL⟩ := rfl

example : decEqv ⟨-8568500000000000000000000001, 25⟩ ⟨-85685, 2⟩ = false := by decide

example :
    -(1 / 10 ^ 4) < valueOf ⟨-8568500000000000000000000001, 25⟩ - valueOf ⟨-85685, 2⟩ ∧
    valueOf ⟨-8568500000000000000000000001, 25⟩ - valueOf ⟨-85685, 2⟩ < 1 / 10 ^ 4 := by
  norm_num [valueOf]

/-- C1: the claim states that every valid token `<number><C|F|K>` in either
case parses and round-trips through the same-unit conversion.  The code
accepts the lowercase unit on parsing (`try_from` uppercases only for the
validity check and stores the original character) but the conversion match
arms compare against the uppercase constants, so the parsed temperature
`5f` hits the `_ => panic!` arm instead of round-tripping. -/
theorem c1_lowercase_roundtrip_panics :
    tempFromStr "5f" = .ok ⟨⟨5, 0⟩, ⟨'f'⟩⟩ ∧
    Temp.to_fahrenheit ⟨⟨5, 0⟩, ⟨'f'⟩⟩ = .invalidUnitPanic :=
  ⟨rfl, rfl⟩

/-- C2: the claim states the panic arm of the conversions is unreachable
through the public construction paths.  `Temp::from_str "0c"` succeeds and
the resulting temperature drives all three conversions into the panic
arm. -/
theorem c2_panic_reachable_from_parse :
    tempFromStr "0c" = .ok ⟨⟨0, 0⟩, ⟨'c'⟩⟩ ∧
    Temp.to_celsius ⟨⟨0, 0⟩, ⟨'c'⟩⟩ = .invalidUnitPanic ∧
    Temp.to_fahrenheit ⟨⟨0, 0⟩, ⟨'c'⟩⟩ = .invalidUnitPanic ∧
    Temp.to_kelvin ⟨⟨0, 0⟩, ⟨'c'⟩⟩ = .invalidUnitPanic :=
  ⟨rfl, rfl, rfl, rfl⟩

/-- C3 counterexample: a temperature with the validly constructed unit
`'k'` is not returned unchanged by the conversion to its own unit — it
panics, so the identity claim fails for it. -/
theorem c3_counterexample :
    tempUnitTryFrom 'k' = .ok ⟨'k'⟩ ∧
    Temp.to_kelvin ⟨⟨123, 1⟩, ⟨'k'⟩⟩ = .invalidUnitPanic :=
  ⟨rfl, rfl⟩

/-- C3 amended: for every temperature whose stored unit character is
exactly the uppercase `'C'`, `'F'` or `'K'`, the conversion to that same
unit returns it unchanged — structurally, with no arithmetic. -/
theorem c3_identity_uppercase (t : Temp) :
    (t.unit = CEL → t.to_celsius = .ok t) ∧
    (t.unit = FAH → t.to_fahrenheit = .ok t) ∧
    (t.unit = KEL → t.to_kelvin = .ok t) := by
  refine ⟨fun h => ?_, fun h => ?_, fun h => ?_⟩
  · simp [Temp.to_celsius, h]
  · simp +decide [Temp.to_fahrenheit, h, FAH, CEL]
  · simp +decide [Temp.to_kelvin, h, KEL, CEL, FAH]

/-- C3 witness: the identity conversion at `-2345.7 C`. -/
theorem c3_identity_uppercase_witness :
    Temp.to_celsius ⟨⟨-23457, 1⟩, CEL⟩ = .ok ⟨⟨-23457, 1⟩, CEL⟩ :=
  (c3_identity_uppercase _).1 rfl

/-- C7: parsing the empty string always fails: there is no last character
to split off, so `from_str` returns the invalid-value error. -/
theorem c7_empty_input_fails :
    tempFromStr "" = .error "Invalid temperature value: " := rfl

/-- C10: for every single-character input the numeric prefix is empty, the
empty string does not parse as a decimal, and `from_str` fails — even when
the single character is a valid unit letter. -/
theorem c10_single_char_fails :
    decimalFromStr (trimChars []) = .error "Invalid decimal: empty" ∧
    ∀ c : Char, (tempFromStr (String.singleton c)).isOk = false := by
  exact ⟨rfl, fun c => rfl⟩

lemma valueOf_dec32 : valueOf dec32 = 32 := by norm_num [valueOf, dec32]

lemma valueOf_dec1_8 : valueOf dec1_8 = 9 / 5 := by norm_num [valueOf, dec1_8]

lemma valueOf_dec273_15 : valueOf dec273_15 = 27315 / 100 := by
  norm_num [valueOf, dec273_15]

lemma valueOf_dec459_67 : valueOf dec459_67 = 45967 / 100 := by
  norm_num [valueOf, dec459_67]

/-- C4 counterexample: the conversion of `41 F` to Celsius does not produce
the spec formula's exact value `(41 - 32) * 5/9 = 5`; the code multiplies
by the 28-digit rounding of 5/9 instead. -/
theorem c4_counterexample :
    Temp.to_celsius ⟨⟨41, 0⟩, FAH⟩ =
      .ok ⟨⟨50000000000000000000000000004, 28⟩, CEL⟩ ∧
    valueOf ⟨50000000000000000000000000004, 28⟩ ≠ (valueOf ⟨41, 0⟩ - 32) * (5 / 9) := by
  refine ⟨rfl, ?_⟩
  norm_num [valueOf]

/-- C4 amended: same-unit conversion is the identity; `K→C`, `C→F`, `K→F`
and `C→K` compute exactly the spec table's formulas whenever the decimal
arithmetic performs no precision reduction; the two `F→` conversions apply
the 28-digit rounded constant `DQ = 0.5555555555555555555555555556` in
place of the exact 5/9 (with the product itself rounded to the decimal
format), which is what the counterexample exhibits. -/
theorem c4_formulas_amended (t : Temp) :
    (t.unit = CEL → t.to_celsius = .ok t) ∧
    (t.unit = FAH → t.to_fahrenheit = .ok t) ∧
    (t.unit = KEL → t.to_kelvin = .ok t) ∧
    (t.unit = KEL → exactKC t = true →
      t.to_celsius = .ok ⟨decSubA t.scalar dec273_15, CEL⟩ ∧
      valueOf (decSubA t.scalar dec273_15) = valueOf t.scalar - 27315 / 100) ∧
    (t.unit = CEL → exactCF t = true →
      t.to_fahrenheit = .ok ⟨decAddA (decMulA t.scalar dec1_8) dec32, FAH⟩ ∧
      valueOf (decAddA (decMulA t.scalar dec1_8) dec32) = valueOf t.scalar * (9 / 5) + 32) ∧
    (t.unit = KEL → exactKF t = true →
      t.to_fahrenheit = .ok ⟨decSubA (decMulA t.scalar dec1_8) dec459_67, FAH⟩ ∧
      valueOf (decSubA (decMulA t.scalar dec1_8) dec459_67) =
        valueOf t.scalar * (9 / 5) - 45967 / 100) ∧
    (t.unit = CEL → exactCK t = true →
      t.to_kelvin = .ok ⟨decAddA t.scalar dec273_15, KEL⟩ ∧
      valueOf (decAddA t.scalar dec273_15) = valueOf t.scalar + 27315 / 100) ∧
    (t.unit = FAH → subExact t.scalar dec32 = true →
      ∀ y, decMul (decSubA t.scalar dec32) DQ = some y →
        t.to_celsius = .ok ⟨y, CEL⟩) ∧
    (t.unit = FAH → addExact t.scalar dec459_67 = true →
      ∀ y, decMul (decAddA t.scalar dec459_67) DQ = some y →
        t.to_kelvin = .ok ⟨y, KEL⟩) := by
  refine ⟨fun h => ?_, fun h => ?_, fun h => ?_, fun h hex => ⟨?_, ?_⟩,
    fun h hex => ⟨?_, ?_⟩, fun h hex => ⟨?_, ?_⟩, fun h hex => ⟨?_, ?_⟩,
    fun h hex y hy => ?_, fun h hex y hy => ?_⟩
  · simp [Temp.to_celsius, h]
  · simp +decide [Temp.to_fahrenheit, h, FAH, CEL]
  · simp +decide [Temp.to_kelvin, h, KEL, CEL, FAH]
  · simp +decide [Temp.to_celsius, h, KEL, CEL, FAH, decSub_of_exact _ _ hex]
  · rw [valueOf_decSubA, valueOf_dec273_15]
  · unfold exactCF at hex
    rw [Bool.and_eq_true] at hex
    obtain ⟨h1, h2⟩ := hex
    simp [Temp.to_fahrenheit, h, decMul_of_exact _ _ h1, decAdd_of_exact _ _ h2]
  · rw [valueOf_decAddA, valueOf_decMulA, valueOf_dec1_8, valueOf_dec32]
  · unfold exactKF at hex
    rw [Bool.and_eq_true] at hex
    obtain ⟨h1, h2⟩ := hex
    simp +decide [Temp.to_fahrenheit, h, KEL, CEL, FAH,
      decMul_of_exact _ _ h1, decSub_of_exact _ _ h2]
  · rw [valueOf_decSubA, valueOf_decMulA, valueOf_dec1_8, valueOf_dec459_67]
  · simp [Temp.to_kelvin, h, decAdd_of_exact _ _ hex]
  · rw [valueOf_decAddA, valueOf_dec273_15]
  · simp +decide [Temp.to_celsius, h, FAH, CEL,
      decSub_of_exact _ _ hex, fiveNinths_eq, hy]
  · simp +decide [Temp.to_kelvin, h, FAH, CEL, KEL,
      decAdd_of_exact _ _ hex, fiveNinths_eq, hy]

/-- C4 witness: every conjunct of the amended formula theorem instantiated
at the spec's concrete scenarios (and the repository's test values). -/
theorem c4_formulas_amended_witness :
    Temp.to_celsius ⟨⟨10, 0⟩, CEL⟩ = .ok ⟨⟨10, 0⟩, CEL⟩ ∧
    Temp.to_fahrenheit ⟨⟨12, 0⟩, FAH⟩ = .ok ⟨⟨12, 0⟩, FAH⟩ ∧
    Temp.to_kelvin ⟨⟨1, 4⟩, KEL⟩ = .ok ⟨⟨1, 4⟩, KEL⟩ ∧
    (Temp.to_celsius ⟨⟨23463, 2⟩, KEL⟩ = .ok ⟨decSubA ⟨23463, 2⟩ dec273_15, CEL⟩ ∧
      valueOf (decSubA ⟨23463, 2⟩ dec273_15) = valueOf (⟨23463, 2⟩ : Decimal) - 27315 / 100) ∧
    (Temp.to_fahrenheit ⟨⟨-18, 0⟩, CEL⟩ =
        .ok ⟨decAddA (decMulA ⟨-18, 0⟩ dec1_8) dec32, FAH⟩ ∧
      valueOf (decAddA (decMulA ⟨-18, 0⟩ dec1_8) dec32) =
        valueOf (⟨-18, 0⟩ : Decimal) * (9 / 5) + 32) ∧
    (Temp.to_fahrenheit ⟨⟨38653675, 0⟩, KEL⟩ =
        .ok ⟨decSubA (decMulA ⟨38653675, 0⟩ dec1_8) dec459_67, FAH⟩ ∧
      valueOf (decSubA (decMulA ⟨38653675, 0⟩ dec1_8) dec459_67) =
        valueOf (⟨38653675, 0⟩ : Decimal) * (9 / 5) - 45967 / 100) ∧
    (Temp.to_kelvin ⟨⟨2500, 2⟩, CEL⟩ = .ok ⟨decAddA ⟨2500, 2⟩ dec273_15, KEL⟩ ∧
      valueOf (decAddA ⟨2500, 2⟩ dec273_15) = valueOf (⟨2500, 2⟩ : Decimal) + 27315 / 100) ∧
    Temp.to_celsius ⟨⟨41, 0⟩, FAH⟩ =
      .ok ⟨⟨50000000000000000000000000004, 28⟩, CEL⟩ ∧
    Temp.to_kelvin ⟨⟨-200200, 2⟩, FAH⟩ =
      .ok ⟨⟨-8568500000000000000000000001, 25⟩, KEL⟩ :=
  ⟨(c4_formulas_amended _).1 rfl,
   (c4_formulas_amended _).2.1 rfl,
   (c4_formulas_amended _).2.2.1 rfl,
   (c4_formulas_amended _).2.2.2.1 rfl (by decide),
   (c4_formulas_amended _).2.2.2.2.1 rfl (by decide),
   (c4_formulas_amended _).2.2.2.2.2.1 rfl (by decide),
   (c4_formulas_amended _).2.2.2.2.2.2.1 rfl (by decide),
   (c4_formulas_amended _).2.2.2.2.2.2.2.1 rfl (by decide) _ rfl,
   (c4_formulas_amended _).2.2.2.2.2.2.2.2 rfl (by decide) _ rfl⟩

/-- C5 counterexample: the cycle `C → F → C` starting from scalar `1` does
not return the original scalar: the result compares unequal under the
decimal equality and has a different exact value (the drift introduced by
the rounded 5/9 constant). -/
theorem c5_counterexample :
    convChain ⟨⟨1, 0⟩, CEL⟩ .tF .tC =
      .ok ⟨⟨10000000000000000000000000001, 28⟩, CEL⟩ ∧
    decEqv ⟨10000000000000000000000000001, 28⟩ ⟨1, 0⟩ = false ∧
    valueOf ⟨10000000000000000000000000001, 28⟩ ≠ valueOf ⟨1, 0⟩ := by
  refine ⟨rfl, by decide, ?_⟩
  norm_num [valueOf]

/-- C5 amended: cycles that avoid the rounded 5/9 constant are exact when
the additions stay in range: `C → K → C` returns the original scalar value
exactly.  Cycles through a Fahrenheit conversion drift at the 28th digit,
as the counterexample shows. -/
theorem c5_cycle_amended (t : Temp) (hu : t.unit = CEL)
    (h1 : addExact t.scalar dec273_15 = true)
    (h2 : subExact (decAddA t.scalar dec273_15) dec273_15 = true) :
    convChain t .tK .tC = .ok ⟨decSubA (decAddA t.scalar dec273_15) dec273_15, CEL⟩ ∧
    valueOf (decSubA (decAddA t.scalar dec273_15) dec273_15) = valueOf t.scalar := by
  constructor
  · have hstep : convChain t .tK .tC =
        (match t.to_kelvin with
          | ConvResult.ok t' => t'.to_celsius
          | r => r) := rfl
    have hk : t.to_kelvin = .ok ⟨decAddA t.scalar dec273_15, KEL⟩ := by
      simp [Temp.to_kelvin, hu, decAdd_of_exact _ _ h1]
    rw [hstep, hk]
    simp +decide [Temp.to_celsius, KEL, CEL, FAH, decSub_of_exact _ _ h2]
  · rw [valueOf_decSubA, valueOf_decAddA]
    ring

/-- C5 witness: the `C → K → C` cycle at `25 C`. -/
theorem c5_cycle_amended_witness :
    convChain ⟨⟨25, 0⟩, CEL⟩ .tK .tC =
      .ok ⟨decSubA (decAddA ⟨25, 0⟩ dec273_15) dec273_15, CEL⟩ ∧
    valueOf (decSubA (decAddA ⟨25, 0⟩ dec273_15) dec273_15) =
      valueOf (⟨25, 0⟩ : Decimal) :=
  c5_cycle_amended ⟨⟨25, 0⟩, CEL⟩ rfl (by decide) (by decide)

/-- C6: whenever both the numeric prefix and the trailing unit character
fail to parse, `from_str` returns one error whose message carries both the
numeric-parse error text and the invalid-unit description; and parsing
succeeds only when both parts are valid. -/
theorem c6_combined_error :
    (∀ (s : String) (u : Char) (init : List Char) (e1 e2 : String),
      splitLast s.data = some (u, init) →
      decimalFromStr (trimChars init) = .error e1 →
      tempUnitTryFrom u = .error e2 →
      tempFromStr s =
        .error ("Unable to convert " ++ s ++ " into temperature:\n" ++ e1 ++ "\n" ++ e2)) ∧
    (∀ (s : String) (t : Temp), tempFromStr s = .ok t →
      ∃ u init, splitLast s.data = some (u, init) ∧
        decimalFromStr (trimChars init) = .ok t.scalar ∧
        tempUnitTryFrom u = .ok t.unit) := by
  constructor
  · intro s u init e1 e2 hsp hsc htu
    unfold tempFromStr
    rw [hsp]
    simp only [hsc, htu]
  · intro s t h
    unfold tempFromStr at h
    cases hsp : splitLast s.data with
    | none => rw [hsp] at h; exact absurd h (by simp)
    | some p =>
      obtain ⟨u, init⟩ := p
      rw [hsp] at h
      have h' : (match decimalFromStr (trimChars init), tempUnitTryFrom u with
          | Except.ok sc, Except.ok un => Except.ok (⟨sc, un⟩ : Temp)
          | _, _ =>
            Except.error ("Unable to convert " ++ s ++ " into temperature:\n"
              ++ (match decimalFromStr (trimChars init) with
                  | Except.error e => e
                  | Except.ok _ => "")
              ++ "\n"
              ++ (match tempUnitTryFrom u with
                  | Except.error e => e
                  | Except.ok _ => ""))) = Except.ok t := h
      clear h
      cases hsc : decimalFromStr (trimChars init) with
      | error e => rw [hsc] at h'; exact absurd h' (by simp)
      | ok sc =>
        cases htu : tempUnitTryFrom u with
        | error e => rw [hsc, htu] at h'; exact absurd h' (by simp)
        | ok un =>
          rw [hsc, htu] at h'
          simp only [Except.ok.injEq] at h'
          subst h'
          exact ⟨u, init, rfl, hsc, htu⟩

/-- C6 witness: `12qZ` has an unparsable scalar and an invalid unit; the
single error message reports both. -/
theorem c6_combined_error_witness :
    tempFromStr "12qZ" =
      .error ("Unable to convert " ++ "12qZ" ++ " into temperature:\n" ++
        "Invalid decimal: unknown character" ++ "\n" ++
        "Z is not a valid temperature unit") :=
  c6_combined_error.1 "12qZ" 'Z' ['1', '2', 'q'] _ _ rfl rfl rfl

lemma normAux_value : ∀ (s : Nat) (m : Int), valueOf (normAux m s) = valueOf ⟨m, s⟩ := by
  intro s
  induction s with
  | zero => intro m; rfl
  | succ n ih =>
    intro m
    show valueOf (if m % 10 = 0 then normAux (m / 10) n else ⟨m, n + 1⟩) = _
    by_cases h : m % 10 = 0
    · rw [if_pos h, ih]
      obtain ⟨c, hc⟩ := Int.dvd_of_emod_eq_zero h
      subst hc
      unfold valueOf
      rw [Int.mul_ediv_cancel_left _ (by norm_num : (10 : ℤ) ≠ 0)]
      push_cast
      rw [pow_succ]
      field_simp
      ring
    · rw [if_neg h]

lemma normAux_mant : ∀ (s : Nat) (m : Int),
    (normAux m s).scale ≠ 0 → (normAux m s).mantissa % 10 ≠ 0 := by
  intro s
  induction s with
  | zero => intro m h; exact absurd rfl h
  | succ n ih =>
    intro m h
    by_cases hm : m % 10 = 0
    · have e : normAux m (n + 1) = normAux (m / 10) n := by
        show (if m % 10 = 0 then normAux (m / 10) n else ⟨m, n + 1⟩) = _
        rw [if_pos hm]
      rw [e] at h ⊢
      exact ih _ h
    · have e : normAux m (n + 1) = ⟨m, n + 1⟩ := by
        show (if m % 10 = 0 then normAux (m / 10) n else ⟨m, n + 1⟩) = _
        rw [if_neg hm]
      rw [e]
      exact hm

/-- C8: the display is the normalized scalar, a space, and the stored unit
character; normalization preserves the exact value and strips trailing
zeros (after it, either the scale is zero or the last digit is nonzero),
and the concrete `32.00 F` displays as `32 F`. -/
theorem c8_display :
    (∀ d : Decimal, valueOf (decNormalize d) = valueOf d) ∧
    (∀ d : Decimal, (decNormalize d).scale ≠ 0 → (decNormalize d).mantissa % 10 ≠ 0) ∧
    (∀ t : Temp, tempToString t =
      decToString (decNormalize t.scalar) ++ " " ++ String.singleton t.unit.c) ∧
    tempToString ⟨⟨3200, 2⟩, FAH⟩ = "32 F" :=
  ⟨fun d => normAux_value d.scale d.mantissa,
   fun d => normAux_mant d.scale d.mantissa,
   fun _ => rfl, rfl⟩

/-- C8 witness: the normalization and display facts at concrete inputs. -/
theorem c8_display_witness :
    valueOf (decNormalize ⟨3200, 2⟩) = valueOf ⟨3200, 2⟩ ∧
    (decNormalize ⟨325, 1⟩).mantissa % 10 ≠ 0 ∧
    tempToString ⟨⟨3200, 2⟩, FAH⟩ = "32 F" :=
  ⟨c8_display.1 ⟨3200, 2⟩, c8_display.2.1 ⟨325, 1⟩ (by decide), c8_display.2.2.2⟩

/-- C9 counterexample: a Temp with the uppercase unit `'F'` and the most
negative representable scalar overflows the 96-bit subtraction inside
`to_celsius`, so the conversion aborts instead of returning a Temp: the
claim's "returns a Temp" is not total even for uppercase units. -/
theorem c9_counterexample :
    Temp.to_celsius ⟨⟨-79228162514264337593543950335, 0⟩, FAH⟩ = .arithOverflow := rfl

/-- C9 amended: for every Temp whose unit is one of the uppercase
constants, no conversion ever reaches the invalid-unit panic arm, and any
Temp a conversion does return again carries one of the uppercase unit
constants; totality, however, can fail by arithmetic overflow. -/
theorem c9_unit_invariant (t : Temp)
    (hu : t.unit = CEL ∨ t.unit = FAH ∨ t.unit = KEL) :
    (∀ tg, applyConv tg t ≠ .invalidUnitPanic) ∧
    (∀ tg t', applyConv tg t = .ok t' →
      t'.unit = CEL ∨ t'.unit = FAH ∨ t'.unit = KEL) := by
  constructor
  · intro tg
    rcases hu with h | h | h <;> cases tg <;>
      simp +decide [applyConv, Temp.to_celsius, Temp.to_fahrenheit, Temp.to_kelvin,
        h, CEL, FAH, KEL] <;>
      (repeat' split) <;> simp
  · intro tg t'
    rcases hu with h | h | h <;> cases tg <;>
      simp +decide [applyConv, Temp.to_celsius, Temp.to_fahrenheit, Temp.to_kelvin,
        h, CEL, FAH, KEL] <;>
      (repeat' split)
    all_goals
      try simp
    all_goals
      intro he
    all_goals
      subst he
    all_goals
      simp +decide [h, CEL, FAH, KEL]

/-- C9 witness: the invariant at the Kelvin temperature `0 K` converted to
Celsius. -/
theorem c9_unit_invariant_witness :
    applyConv .tC ⟨⟨0, 0⟩, KEL⟩ ≠ .invalidUnitPanic ∧
    ((⟨⟨-27315, 2⟩, CEL⟩ : Temp).unit = CEL ∨
      (⟨⟨-27315, 2⟩, CEL⟩ : Temp).unit = FAH ∨
      (⟨⟨-27315, 2⟩, CEL⟩ : Temp).unit = KEL) :=
  ⟨(c9_unit_invariant ⟨⟨0, 0⟩, KEL⟩ (Or.inr (Or.inr rfl))).1 .tC,
   (c9_unit_invariant ⟨⟨0, 0⟩, KEL⟩ (Or.inr (Or.inr rfl))).2 .tC ⟨⟨-27315, 2⟩, CEL⟩ rfl⟩
